import Mathlib

/-!
Shallow embedding of the customer-support backend (ticketing, blog, admin
dashboard, RBAC decorators) and proofs about its documented behavior.

Times are modelled as natural numbers counting seconds; a Python datetime
is a second count, a timedelta is a difference of second counts, and the
Python attribute timedelta.days is floor division by 86400.
-/

namespace App

/-- Seconds in one hour. -/
def secondsPerHour : Nat := 3600

/-- Seconds in one day. -/
def secondsPerDay : Nat := 86400

/-- Status constants of class TicketStatus in app/models/ticket.py. -/
inductive TicketStatus where
| OPEN
| ASSIGNED
| IN_PROGRESS
| WAITING
| RESOLVED
| CLOSED
| REOPENED
deriving DecidableEq, Repr

/-- Priority constants of class TicketPriority in app/models/ticket.py. -/
inductive TicketPriority where
| LOW
| MEDIUM
| HIGH
| URGENT
deriving DecidableEq, Repr

/-- The TicketStatus.TRANSITIONS dict: current status to allowed next statuses. -/
def TRANSITIONS : TicketStatus → List TicketStatus
| .OPEN => [.ASSIGNED, .CLOSED]
| .ASSIGNED => [.IN_PROGRESS, .CLOSED]
| .IN_PROGRESS => [.WAITING, .RESOLVED, .CLOSED]
| .WAITING => [.IN_PROGRESS]
| .RESOLVED => [.CLOSED, .REOPENED]
| .CLOSED => [.REOPENED]
| .REOPENED => [.IN_PROGRESS]

/-- The TicketPriority.SLA dict: hours until first response and until resolution,
indexed by priority.  The dict contains every priority, so it is a total map. -/
def SLA : TicketPriority → Nat × Nat
| .URGENT => (2, 24)
| .HIGH => (4, 48)
| .MEDIUM => (8, 120)
| .LOW => (24, 240)

/-- The columns of the Ticket model that the verified endpoints touch.
Nullable datetime columns are Option Nat; created_at is Option Nat because the
column is only populated at commit time (calculate_sla_deadlines can run before). -/
structure Ticket where
  id : Nat
  status : TicketStatus
  priority : TicketPriority
  customer_id : Nat
  assigned_to_id : Option Nat
  created_at : Option Nat
  resolved_at : Option Nat
  closed_at : Option Nat
  sla_response_due : Option Nat
  sla_resolution_due : Option Nat
  first_response_at : Option Nat
deriving DecidableEq, Repr

/-- Ticket.calculate_sla_deadlines: deadlines are base time plus the SLA hour
offsets for the current priority, where base time is created_at when set and
the current instant otherwise. -/
def calculate_sla_deadlines (t : Ticket) (now : Nat) : Ticket :=
  let hours := SLA t.priority
  let base := t.created_at.getD now
  { t with
    sla_response_due := some (base + hours.1 * secondsPerHour)
    sla_resolution_due := some (base + hours.2 * secondsPerHour) }

/-- Ticket.can_transition_to: the closed to reopened edge is additionally gated
by (now - closed_at).days <= 7, every other edge by the TRANSITIONS table. -/
def can_transition_to (t : Ticket) (new_status : TicketStatus) (now : Nat) : Bool :=
  if t.status = TicketStatus.CLOSED ∧ new_status = TicketStatus.REOPENED then
    match t.closed_at with
    | some c => decide ((now - c) / secondsPerDay ≤ 7)
    | none => false
  else
    decide (new_status ∈ TRANSITIONS t.status)

/-- Ticket.transition_to: returns whether the transition was performed together
with the updated ticket, stamping or clearing resolved_at and closed_at. -/
def transition_to (t : Ticket) (new_status : TicketStatus) (now : Nat) : Bool × Ticket :=
  if can_transition_to t new_status now = false then (false, t)
  else
    let t1 := { t with status := new_status }
    let t2 :=
      if new_status = TicketStatus.RESOLVED then { t1 with resolved_at := some now }
      else if new_status = TicketStatus.CLOSED then { t1 with closed_at := some now }
      else if new_status = TicketStatus.REOPENED then
        { t1 with resolved_at := none, closed_at := none }
      else t1
    (true, t2)

/-- Role constants of class UserRole in app/models/user.py. -/
inductive UserRole where
| CUSTOMER
| AGENT
| ADMIN
deriving DecidableEq, Repr

/-- The columns of the User model that the verified endpoints touch. -/
structure User where
  id : Nat
  role : UserRole
  is_active : Bool
deriving DecidableEq, Repr

/-- User.is_admin property. -/
def User.is_admin (u : User) : Bool := decide (u.role = UserRole.ADMIN)

/-- User.is_agent property. -/
def User.is_agent (u : User) : Bool := decide (u.role = UserRole.AGENT)

/-- User.is_customer property. -/
def User.is_customer (u : User) : Bool := decide (u.role = UserRole.CUSTOMER)

/-- User.can_access_ticket: admins always, agents when assigned to them or
unassigned, customers only for their own tickets. -/
def User.can_access_ticket (u : User) (t : Ticket) : Bool :=
  if u.is_admin then true
  else if u.is_agent then decide (t.assigned_to_id = some u.id) || decide (t.assigned_to_id = none)
  else decide (t.customer_id = u.id)

/-- Outcome of the PUT /tickets/id/status endpoint (update_ticket_status in
app/api/tickets.py), restricted to an authenticated caller and an existing
ticket. -/
inductive StatusUpdateResult where
| forbidden403
| validation400
| invalidTransition400 (old_status new_status : TicketStatus)
| ok200 (t : Ticket)
deriving DecidableEq, Repr

/-- The part of update_ticket_status after the customer permission gate:
schema validation of the requested status (none models a missing or unknown
status string), then transition validation, then the transition itself. -/
def update_ticket_status_core (ticket : Ticket) (req_status : Option TicketStatus)
    (now : Nat) : StatusUpdateResult :=
  match req_status with
  | none => StatusUpdateResult.validation400
  | some new_status =>
    if can_transition_to ticket new_status now then
      StatusUpdateResult.ok200 (transition_to ticket new_status now).2
    else
      StatusUpdateResult.invalidTransition400 ticket.status new_status

/-- The update_ticket_status handler: a customer caller is rejected with 403
unless they request reopened on their own currently resolved ticket; then the
shared validation and transition logic runs. -/
def update_ticket_status (user : User) (ticket : Ticket) (req_status : Option TicketStatus)
    (now : Nat) : StatusUpdateResult :=
  if user.is_customer then
    if req_status ≠ some TicketStatus.REOPENED ∨ ticket.status ≠ TicketStatus.RESOLVED then
      StatusUpdateResult.forbidden403
    else if ticket.customer_id ≠ user.id then
      StatusUpdateResult.forbidden403
    else
      update_ticket_status_core ticket req_status now
  else
    update_ticket_status_core ticket req_status now

/-- Outcome of the PUT /tickets/id/priority endpoint (update_ticket_priority in
app/api/tickets.py), restricted to an authenticated caller and an existing
ticket. -/
inductive PriorityUpdateResult where
| forbidden403
| validation400
| ok200 (t : Ticket)
deriving DecidableEq, Repr

/-- The update_ticket_priority handler behind the agent-or-admin decorator:
schema validation of priority (none models a missing or unknown priority
string) and of the reason length (5 to 500 characters), rejection of a no-op
change, then the priority write followed by calculate_sla_deadlines. -/
def update_ticket_priority (user : User) (ticket : Ticket) (req_priority : Option TicketPriority)
    (reason_len : Nat) (now : Nat) : PriorityUpdateResult :=
  if user.role = UserRole.AGENT ∨ user.role = UserRole.ADMIN then
    match req_priority with
    | none => PriorityUpdateResult.validation400
    | some new_priority =>
      if reason_len < 5 ∨ 500 < reason_len then PriorityUpdateResult.validation400
      else if ticket.priority = new_priority then PriorityUpdateResult.validation400
      else PriorityUpdateResult.ok200
        (calculate_sla_deadlines { ticket with priority := new_priority } now)
  else
    PriorityUpdateResult.forbidden403

/-- Outcome of the escalate_ticket background task in app/tasks/sla_tasks.py. -/
inductive EscalateOutcome where
| noAdminWarning
| escalated
deriving DecidableEq, Repr

/-- The escalate_ticket task body for an existing ticket: when an active admin
exists, the priority is upgraded to urgent if it is not urgent already; the
task never touches the SLA deadline columns. -/
def escalate_ticket (admin_available : Bool) (ticket : Ticket) : EscalateOutcome × Ticket :=
  if admin_available = false then (EscalateOutcome.noAdminWarning, ticket)
  else if ticket.priority ≠ TicketPriority.URGENT then
    (EscalateOutcome.escalated, { ticket with priority := TicketPriority.URGENT })
  else
    (EscalateOutcome.escalated, ticket)

/-- The SLA-relevant part of the POST /tickets handler (create_ticket in
app/api/tickets.py): the ticket is built with status open and no timestamps,
calculate_sla_deadlines runs before commit (created_at still unset, so the
base time is the current instant), and the commit stamps created_at. -/
def create_ticket (customer : User) (tid : Nat) (priority : TicketPriority) (now : Nat) : Ticket :=
  let t : Ticket :=
    { id := tid
      status := TicketStatus.OPEN
      priority := priority
      customer_id := customer.id
      assigned_to_id := none
      created_at := none
      resolved_at := none
      closed_at := none
      sla_response_due := none
      sla_resolution_due := none
      first_response_at := none }
  let t1 := calculate_sla_deadlines t now
  { t1 with created_at := some now }

/-- The columns of the TicketComment model that the comment endpoint writes. -/
structure TicketComment where
  ticket_id : Nat
  user_id : Nat
  content : String
  is_internal : Bool
deriving DecidableEq, Repr

/-- Outcome of the POST /tickets/id/comments endpoint (add_ticket_comment in
app/api/tickets.py), restricted to an authenticated caller and an existing
ticket. -/
inductive CommentResult where
| forbidden403
| validation400
| created201 (c : TicketComment)
deriving DecidableEq, Repr

/-- The add_ticket_comment handler: ticket access check, schema validation of
the content length (1 to 5000), then the internal-flag downgrade for customer
authors and the insert of the comment row. -/
def add_ticket_comment (user : User) (ticket : Ticket) (content : String)
    (req_is_internal : Bool) : CommentResult :=
  if user.can_access_ticket ticket = false then CommentResult.forbidden403
  else if content.length < 1 ∨ 5000 < content.length then CommentResult.validation400
  else
    let stored_internal := if user.is_customer && req_is_internal then false else req_is_internal
    CommentResult.created201
      { ticket_id := ticket.id
        user_id := user.id
        content := content
        is_internal := stored_internal }

/-- Outcome of a guard decorator from app/utils/decorators.py once the bearer
token has been verified: the looked-up user (none when the id resolves to no
user) is either rejected or passed through to the wrapped handler. -/
inductive GuardResult where
| unauthorized401
| forbidden403 (msg : String)
| allowed (u : User)
deriving DecidableEq, Repr

/-- The require_role decorator: 401 when the user is missing, then 403 for an
inactive account, then 403 when the role is not in the allowed list. -/
def require_role (roles : List UserRole) (user : Option User) : GuardResult :=
  match user with
  | none => GuardResult.unauthorized401
  | some u =>
    if u.is_active = false then GuardResult.forbidden403 "Account is disabled"
    else if decide (u.role ∈ roles) = false then GuardResult.forbidden403 "Insufficient permissions"
    else GuardResult.allowed u

/-- The admin_required decorator: 403 unless the user exists and is an admin;
it performs no is_active check. -/
def admin_required (user : Option User) : GuardResult :=
  match user with
  | none => GuardResult.forbidden403 "Admin access required"
  | some u =>
    if u.is_admin = false then GuardResult.forbidden403 "Admin access required"
    else GuardResult.allowed u

/-- The agent_or_admin_required decorator: 403 unless the user exists and has
role agent or admin; it performs no is_active check. -/
def agent_or_admin_required (user : Option User) : GuardResult :=
  match user with
  | none => GuardResult.forbidden403 "Agent or admin access required"
  | some u =>
    if decide (u.role ∈ [UserRole.AGENT, UserRole.ADMIN]) = false then
      GuardResult.forbidden403 "Agent or admin access required"
    else GuardResult.allowed u

/-- Status values of the BlogPost model in app/models/blog.py. -/
inductive BlogStatus where
| draft
| published
| archived
deriving DecidableEq, Repr

/-- The columns of the BlogPost model that the verified endpoints touch. -/
structure BlogPost where
  id : Nat
  slug : String
  status : BlogStatus
  view_count : Nat
  published_at : Option Nat
  author_id : Nat
deriving DecidableEq, Repr

/-- BlogPost.publish: sets the status to published and unconditionally stamps
published_at with the current instant. -/
def BlogPost.publish (p : BlogPost) (now : Nat) : BlogPost :=
  { p with status := BlogStatus.published, published_at := some now }

/-- BlogPost.increment_views. -/
def BlogPost.increment_views (p : BlogPost) : BlogPost :=
  { p with view_count := p.view_count + 1 }

/-- The status-relevant part of the POST /posts handler (create_post in
app/api/blog.py): the post is built with the requested status (the schema
defaults it to draft) and publish runs when that status is published. -/
def create_post (author : User) (pid : Nat) (slug : String) (req_status : BlogStatus)
    (now : Nat) : BlogPost :=
  let p : BlogPost :=
    { id := pid
      slug := slug
      status := req_status
      view_count := 0
      published_at := none
      author_id := author.id }
  if p.status = BlogStatus.published then p.publish now else p

/-- The status branch of the PUT /posts/id handler (update_post in
app/api/blog.py): the new status is written, and publish runs exactly when the
new status is published and the old one was not. -/
def update_post_status (post : BlogPost) (new_status : BlogStatus) (now : Nat) : BlogPost :=
  let old_status := post.status
  let p := { post with status := new_status }
  if new_status = BlogStatus.published ∧ old_status ≠ BlogStatus.published then p.publish now
  else p

/-- Result of one public post read: the HTTP status, the post row as stored
after the request, and the cache entry for the post after the request. -/
structure PostRead where
  status_code : Nat
  post : BlogPost
  cache : Option BlogPost
deriving DecidableEq, Repr

/-- The GET /posts/id handler (get_post in app/api/blog.py): a cache hit is
served directly, otherwise a published post has its view count incremented,
is cached and returned, and an unpublished post yields 404. -/
def get_post (cache : Option BlogPost) (post : BlogPost) : PostRead :=
  match cache with
  | some cached => { status_code := 200, post := post, cache := some cached }
  | none =>
    if post.status ≠ BlogStatus.published then
      { status_code := 404, post := post, cache := none }
    else
      let p := post.increment_views
      { status_code := 200, post := p, cache := some p }

/-- The GET /posts/slug handler (get_post_by_slug in app/api/blog.py) for a
non-numeric slug: a cache hit is served directly, otherwise the post is found
only when its slug matches and it is published, in which case its view count
is incremented and the result cached. -/
def get_post_by_slug (cache : Option BlogPost) (post : BlogPost) (slug : String) : PostRead :=
  match cache with
  | some cached => { status_code := 200, post := post, cache := some cached }
  | none =>
    if post.slug = slug ∧ post.status = BlogStatus.published then
      let p := post.increment_views
      { status_code := 200, post := p, cache := some p }
    else
      { status_code := 404, post := post, cache := none }

/-- SQL IN with three-valued logic: a null operand yields null. -/
def sqlIn (s : Option TicketStatus) (l : List TicketStatus) : Option Bool :=
  match s with
  | none => none
  | some v => some (decide (v ∈ l))

/-- SQL NULLIF: null when the two arguments are equal, the first otherwise. -/
def nullif (b : Option Bool) (c : Bool) : Option Bool :=
  match b with
  | none => none
  | some v => if v = c then none else some v

/-- SQL COUNT over a column expression: counts the non-null values. -/
def sqlCount {α : Type} (rows : List (Option α)) : Nat :=
  (rows.filter Option.isSome).length

/-- The rows contributed by one agent to the grouped LEFT OUTER JOIN of users
with tickets on assigned_to_id in get_dashboard_metrics (app/api/admin.py):
the agent's assigned tickets, or a single all-null row when there are none. -/
def joinRows (tickets : List Ticket) (agent_id : Nat) : List (Option Ticket) :=
  let assigned := tickets.filter (fun t => decide (t.assigned_to_id = some agent_id))
  if assigned.isEmpty then [none] else assigned.map some

/-- The assigned_count aggregate of get_dashboard_metrics: count(Ticket.id)
over the agent's join group. -/
def assigned_count (tickets : List Ticket) (agent_id : Nat) : Nat :=
  sqlCount ((joinRows tickets agent_id).map (fun r => r.map Ticket.id))

/-- The resolved_count aggregate of get_dashboard_metrics:
count(nullif(Ticket.status in (resolved, closed), false)) over the agent's
join group. -/
def resolved_count (tickets : List Ticket) (agent_id : Nat) : Nat :=
  sqlCount ((joinRows tickets agent_id).map
    (fun r => nullif (sqlIn (r.map Ticket.status) [TicketStatus.RESOLVED, TicketStatus.CLOSED]) false))

/-- Decimal digit characters of a natural number, most significant first,
computed with a fuel argument the way the runtime decimal printer is. -/
def decRepAux : Nat → Nat → List Char
| 0, _ => []
| fuel + 1, n =>
  let d := Char.ofNat (48 + n % 10)
  if n < 10 then [d] else decRepAux fuel (n / 10) ++ [d]

/-- Decimal string of a natural number. -/
def decRep (n : Nat) : String :=
  String.mk (decRepAux (n + 1) n)

/-- The Python format spec 04d as used for the ticket sequence: the decimal
string left-padded with zeros to a minimum width of four characters. -/
def padSeq (n : Nat) : String :=
  String.mk (List.replicate (4 - (decRep n).length) '0') ++ decRep n

/-- The day-scoped database state that Ticket.generate_ticket_number queries:
the numeric sequence parts of the ticket numbers sharing the TICK-date prefix,
listed in primary-key (insertion) order. -/
abbrev DayDb := List Nat

/-- The sequence chosen by Ticket.generate_ticket_number: the query orders the
matching tickets by id descending and takes the first, so the last inserted
sequence plus one, or 1 when the day has no tickets. -/
def nextSeq (db : DayDb) : Nat :=
  match db.getLast? with
  | some last_num => last_num + 1
  | none => 1

/-- Ticket.generate_ticket_number for a given UTC date string. -/
def generate_ticket_number (date : String) (db : DayDb) : String :=
  "TICK-" ++ date ++ "-" ++ padSeq (nextSeq db)

/-- Day states reachable through the ticket API: the day starts empty, ticket
creation appends the generated sequence, and the admin delete endpoint removes
an arbitrary ticket. -/
inductive ReachableDb : DayDb → Prop where
| nil : ReachableDb []
| create (db : DayDb) : ReachableDb db → ReachableDb (db ++ [nextSeq db])
| delete (db : DayDb) (i : Nat) : ReachableDb db → ReachableDb (db.eraseIdx i)

/-- The day databases produced by creating tickets 1 up to n in order. -/
def seqsUpTo : Nat → DayDb
| 0 => []
| n + 1 => seqsUpTo n ++ [n + 1]

/-- An active admin used in concrete instances. -/
def adminUser : User := { id := 1, role := UserRole.ADMIN, is_active := true }

/-- An active customer used in concrete instances. -/
def customerUser : User := { id := 2, role := UserRole.CUSTOMER, is_active := true }

/-- An inactive admin used in concrete instances. -/
def inactiveAdmin : User := { id := 7, role := UserRole.ADMIN, is_active := false }

/-- An open ticket owned by customerUser. -/
def openTicket : Ticket :=
  { id := 1
    status := TicketStatus.OPEN
    priority := TicketPriority.MEDIUM
    customer_id := 2
    assigned_to_id := none
    created_at := some 0
    resolved_at := none
    closed_at := none
    sla_response_due := none
    sla_resolution_due := none
    first_response_at := none }

/-- A resolved ticket owned by customerUser. -/
def resolvedTicket : Ticket :=
  { openTicket with status := TicketStatus.RESOLVED, resolved_at := some 100 }

/-- A closed ticket owned by customerUser, closed at time 0. -/
def closedTicket : Ticket :=
  { openTicket with status := TicketStatus.CLOSED, closed_at := some 0 }

/-- A high-priority ticket created through the creation endpoint at time 0. -/
def highTicket : Ticket := create_ticket customerUser 3 TicketPriority.HIGH 0

/-- A blog post created through the creation endpoint at time 0 with status
published. -/
def publishedPost : BlogPost := create_post customerUser 1 "hello-world" BlogStatus.published 0

/-- C10: the role-set guard rejects an inactive user with 403 before any role
check, while the admin-only guard and the agent-or-admin guard perform no
is_active check, so an inactive admin (respectively inactive agent or admin)
is granted access by those two guards. -/
theorem C10_inactive_guards (roles : List UserRole) (u : User) (hina : u.is_active = false) :
    require_role roles (some u) = GuardResult.forbidden403 "Account is disabled" ∧
    (u.role = UserRole.ADMIN → admin_required (some u) = GuardResult.allowed u) ∧
    (u.role = UserRole.AGENT ∨ u.role = UserRole.ADMIN →
      agent_or_admin_required (some u) = GuardResult.allowed u) := by
  refine ⟨?_, ?_, ?_⟩
  · simp [require_role, hina]
  · intro h
    simp [admin_required, User.is_admin, h]
  · intro h
    rcases h with h | h <;> simp [agent_or_admin_required, h]

/-- C10 witness: the three guards evaluated on a concrete inactive admin. -/
theorem C10_inactive_guards_witness :
    require_role [UserRole.ADMIN] (some inactiveAdmin) =
      GuardResult.forbidden403 "Account is disabled" ∧
    (inactiveAdmin.role = UserRole.ADMIN →
      admin_required (some inactiveAdmin) = GuardResult.allowed inactiveAdmin) ∧
    (inactiveAdmin.role = UserRole.AGENT ∨ inactiveAdmin.role = UserRole.ADMIN →
      agent_or_admin_required (some inactiveAdmin) = GuardResult.allowed inactiveAdmin) :=
  C10_inactive_guards [UserRole.ADMIN] inactiveAdmin rfl

/-- C5: a comment posted by a customer with access to the ticket is persisted
with is_internal false and the request succeeds with 201, even when the
request body set is_internal true; the flag is silently downgraded. -/
theorem C5_customer_comment_internal (u : User) (t : Ticket) (content : String)
    (req_is_internal : Bool) (hrole : u.role = UserRole.CUSTOMER)
    (hacc : u.can_access_ticket t = true)
    (hlen1 : 1 ≤ content.length) (hlen2 : content.length ≤ 5000) :
    add_ticket_comment u t content req_is_internal =
      CommentResult.created201
        { ticket_id := t.id, user_id := u.id, content := content, is_internal := false } := by
  have hc : u.is_customer = true := by simp [User.is_customer, hrole]
  unfold add_ticket_comment
  rw [hacc, hc]
  cases req_is_internal <;> simp <;> omega

/-- C5 witness: a concrete customer posting a would-be internal comment on
their own ticket. -/
theorem C5_customer_comment_internal_witness :
    add_ticket_comment customerUser openTicket "Please check again" true =
      CommentResult.created201
        { ticket_id := openTicket.id, user_id := customerUser.id,
          content := "Please check again", is_internal := false } :=
  C5_customer_comment_internal customerUser openTicket "Please check again" true rfl
    (by decide) (by decide) (by decide)

/-- C4: for a caller with role customer the status endpoint succeeds exactly
when the requested status is reopened, the ticket is currently resolved and
the caller owns the ticket, and then the ticket ends reopened; every other
customer request, including reopening a closed ticket inside the 7-day
window, is rejected with 403. -/
theorem C4_customer_status_rules (u : User) (t : Ticket) (req : Option TicketStatus) (now : Nat)
    (hrole : u.role = UserRole.CUSTOMER) :
    ((req = some TicketStatus.REOPENED ∧ t.status = TicketStatus.RESOLVED ∧
        t.customer_id = u.id) →
      update_ticket_status u t req now =
        StatusUpdateResult.ok200 ((transition_to t TicketStatus.REOPENED now).2) ∧
      ((transition_to t TicketStatus.REOPENED now).2).status = TicketStatus.REOPENED) ∧
    (¬(req = some TicketStatus.REOPENED ∧ t.status = TicketStatus.RESOLVED ∧
        t.customer_id = u.id) →
      update_ticket_status u t req now = StatusUpdateResult.forbidden403) := by
  have hc : u.is_customer = true := by simp [User.is_customer, hrole]
  constructor
  · rintro ⟨hreq, hst, hown⟩
    subst hreq
    have hcan : can_transition_to t TicketStatus.REOPENED now = true := by
      unfold can_transition_to
      rw [if_neg (by simp [hst])]
      simp [hst, TRANSITIONS]
    constructor
    · unfold update_ticket_status
      rw [hc]
      simp only [if_true]
      rw [if_neg (by simp [hst]), if_neg (by simp [hown])]
      simp [update_ticket_status_core, hcan]
    · unfold transition_to
      rw [hcan]
      simp
  · intro hno
    unfold update_ticket_status
    rw [hc]
    simp only [if_true]
    by_cases h1 : req ≠ some TicketStatus.REOPENED ∨ t.status ≠ TicketStatus.RESOLVED
    · rw [if_pos h1]
    · rw [if_neg h1]
      push_neg at h1
      have hown : t.customer_id ≠ u.id := by
        intro he
        exact hno ⟨h1.1, h1.2, he⟩
      rw [if_pos hown]

/-- C4 witness: a concrete customer reopening their own resolved ticket
succeeds, and the same customer reopening their own freshly closed ticket
(well inside the 7-day window) is rejected with 403. -/
theorem C4_customer_status_rules_witness :
    update_ticket_status customerUser resolvedTicket (some TicketStatus.REOPENED) 0 =
      StatusUpdateResult.ok200 ((transition_to resolvedTicket TicketStatus.REOPENED 0).2) ∧
    update_ticket_status customerUser closedTicket (some TicketStatus.REOPENED) 0 =
      StatusUpdateResult.forbidden403 :=
  ⟨((C4_customer_status_rules customerUser resolvedTicket (some TicketStatus.REOPENED) 0
      rfl).1 (by decide)).1,
   (C4_customer_status_rules customerUser closedTicket (some TicketStatus.REOPENED) 0
      rfl).2 (by decide)⟩

/-- C3 is false as stated: 7 days plus one hour after closing, the elapsed
time strictly exceeds 7 days, yet can_transition_to still permits the reopen,
because the code floors the elapsed time to whole days before comparing with
7; the boundary therefore lies at 8 days, not 7. -/
theorem C3_counterexample :
    closedTicket.status = TicketStatus.CLOSED ∧
    closedTicket.closed_at = some 0 ∧
    7 * secondsPerDay < (7 * secondsPerDay + 3600) - 0 ∧
    can_transition_to closedTicket TicketStatus.REOPENED (7 * secondsPerDay + 3600) = true := by
  decide

/-- C3 amended: for a closed ticket with closed_at set, the reopen transition
is permitted exactly when strictly less than 8 days have elapsed (the code
floors the elapsed days and compares with 7); an attempt 6 days after closing
is allowed and an attempt 8 days after closing is rejected, so the boundary
between allowed and rejected lies exactly at 8 days elapsed. -/
theorem C3_reopen_window (t : Ticket) (c : Nat) (hs : t.status = TicketStatus.CLOSED)
    (hc : t.closed_at = some c) :
    (∀ now, can_transition_to t TicketStatus.REOPENED now = true ↔
      now - c < 8 * secondsPerDay) ∧
    can_transition_to t TicketStatus.REOPENED (c + 6 * secondsPerDay) = true ∧
    can_transition_to t TicketStatus.REOPENED (c + 8 * secondsPerDay) = false := by
  have hiff : ∀ now, can_transition_to t TicketStatus.REOPENED now = true ↔
      now - c < 8 * secondsPerDay := by
    intro now
    unfold can_transition_to
    rw [if_pos ⟨hs, rfl⟩, hc]
    simp only [decide_eq_true_eq]
    unfold secondsPerDay
    omega
  refine ⟨hiff, ?_, ?_⟩
  · rw [hiff]
    unfold secondsPerDay
    omega
  · rw [Bool.eq_false_iff]
    intro hcontra
    rw [hiff] at hcontra
    unfold secondsPerDay at hcontra
    omega

/-- C3 witness: the amended window evaluated on a concrete ticket closed at
time 0. -/
theorem C3_reopen_window_witness :
    (∀ now, can_transition_to closedTicket TicketStatus.REOPENED now = true ↔
      now - 0 < 8 * secondsPerDay) ∧
    can_transition_to closedTicket TicketStatus.REOPENED (0 + 6 * secondsPerDay) = true ∧
    can_transition_to closedTicket TicketStatus.REOPENED (0 + 8 * secondsPerDay) = false :=
  C3_reopen_window closedTicket 0 rfl rfl

/-- C2 is false as stated: the escalation task upgrades a high-priority ticket
to urgent but leaves sla_response_due at the high offset (created_at plus 4
hours) instead of recomputing the urgent offset (created_at plus 2 hours). -/
theorem C2_counterexample :
    (escalate_ticket true highTicket).2.priority = TicketPriority.URGENT ∧
    (escalate_ticket true highTicket).2.created_at = some 0 ∧
    (escalate_ticket true highTicket).2.sla_response_due = some (4 * secondsPerHour) ∧
    (escalate_ticket true highTicket).2.sla_response_due ≠ some (0 + 2 * secondsPerHour) := by
  decide

/-- C2 amended: on creation the SLA deadlines equal the creation time plus the
response and resolution offsets of the priority, and a successful priority
update through the priority endpoint recomputes both deadlines from created_at
with the new priority's offsets; the automatic escalation task, however,
upgrades the priority without recomputing, leaving both deadlines and
created_at exactly as they were. -/
theorem C2_sla_deadlines (cust u : User) (tid : Nat) (p p2 : TicketPriority)
    (t t2 : Ticket) (rlen now now2 : Nat) (b : Bool)
    (hup : update_ticket_priority u t (some p2) rlen now2 = PriorityUpdateResult.ok200 t2) :
    (create_ticket cust tid p now).created_at = some now ∧
    (create_ticket cust tid p now).sla_response_due =
      some (now + (SLA p).1 * secondsPerHour) ∧
    (create_ticket cust tid p now).sla_resolution_due =
      some (now + (SLA p).2 * secondsPerHour) ∧
    t2.priority = p2 ∧
    t2.sla_response_due = some (t.created_at.getD now2 + (SLA p2).1 * secondsPerHour) ∧
    t2.sla_resolution_due = some (t.created_at.getD now2 + (SLA p2).2 * secondsPerHour) ∧
    (escalate_ticket b t).2.sla_response_due = t.sla_response_due ∧
    (escalate_ticket b t).2.sla_resolution_due = t.sla_resolution_due ∧
    (escalate_ticket b t).2.created_at = t.created_at := by
  have ht2 : t2 = calculate_sla_deadlines { t with priority := p2 } now2 := by
    by_cases h1 : u.role = UserRole.AGENT ∨ u.role = UserRole.ADMIN
    · by_cases h2 : rlen < 5 ∨ 500 < rlen
      · simp [update_ticket_priority, h1, h2] at hup
      · by_cases h3 : t.priority = p2
        · simp [update_ticket_priority, h1, h2, h3] at hup
        · simp [update_ticket_priority, h1, h2, h3] at hup
          exact hup.symm
    · simp [update_ticket_priority, h1] at hup
  refine ⟨rfl, rfl, rfl, ?_, ?_, ?_, ?_, ?_, ?_⟩
  · rw [ht2]; rfl
  · rw [ht2]; rfl
  · rw [ht2]; rfl
  all_goals
    unfold escalate_ticket
    cases b <;> by_cases hp : t.priority = TicketPriority.URGENT <;> simp [hp]

/-- C2 witness: the amended statement evaluated on a concrete high ticket
created at time 0 whose priority an admin lowers at time 50. -/
theorem C2_sla_deadlines_witness :
    (create_ticket customerUser 3 TicketPriority.HIGH 0).created_at = some 0 ∧
    (create_ticket customerUser 3 TicketPriority.HIGH 0).sla_response_due =
      some (0 + (SLA TicketPriority.HIGH).1 * secondsPerHour) ∧
    (create_ticket customerUser 3 TicketPriority.HIGH 0).sla_resolution_due =
      some (0 + (SLA TicketPriority.HIGH).2 * secondsPerHour) ∧
    (calculate_sla_deadlines { highTicket with priority := TicketPriority.LOW } 50).priority =
      TicketPriority.LOW ∧
    (calculate_sla_deadlines { highTicket with priority := TicketPriority.LOW } 50).sla_response_due =
      some (highTicket.created_at.getD 50 + (SLA TicketPriority.LOW).1 * secondsPerHour) ∧
    (calculate_sla_deadlines { highTicket with priority := TicketPriority.LOW } 50).sla_resolution_due =
      some (highTicket.created_at.getD 50 + (SLA TicketPriority.LOW).2 * secondsPerHour) ∧
    (escalate_ticket true highTicket).2.sla_response_due = highTicket.sla_response_due ∧
    (escalate_ticket true highTicket).2.sla_resolution_due = highTicket.sla_resolution_due ∧
    (escalate_ticket true highTicket).2.created_at = highTicket.created_at :=
  C2_sla_deadlines customerUser adminUser 3 TicketPriority.HIGH TicketPriority.LOW highTicket
    (calculate_sla_deadlines { highTicket with priority := TicketPriority.LOW } 50)
    10 0 50 true (by decide)

/-- C1: can_transition_to accepts exactly the pairs of the TRANSITIONS table,
with the closed-to-reopened pair additionally gated by its time window; for an
agent or admin caller the status endpoint answers a rejected transition with a
400 validation error naming the attempted old and new statuses, and answers an
accepted transition by performing it, after which the ticket's status equals
the requested status. -/
theorem C1_transition_table (u : User) (t : Ticket) (s : TicketStatus) (now : Nat)
    (hrole : u.role = UserRole.AGENT ∨ u.role = UserRole.ADMIN) :
    (can_transition_to t s now = true ↔
      (s ∈ TRANSITIONS t.status ∧
        ((t.status = TicketStatus.CLOSED ∧ s = TicketStatus.REOPENED) →
          ∃ c, t.closed_at = some c ∧ (now - c) / secondsPerDay ≤ 7))) ∧
    (update_ticket_status u t (some s) now =
      if can_transition_to t s now then StatusUpdateResult.ok200 ((transition_to t s now).2)
      else StatusUpdateResult.invalidTransition400 t.status s) ∧
    (can_transition_to t s now = true → ((transition_to t s now).2).status = s) := by
  have hc : u.is_customer = false := by
    rcases hrole with h | h <;> simp [User.is_customer, h]
  refine ⟨?_, ?_, ?_⟩
  · unfold can_transition_to
    by_cases hcs : t.status = TicketStatus.CLOSED ∧ s = TicketStatus.REOPENED
    · rw [if_pos hcs]
      rcases hcs with ⟨hclosed, hre⟩
      cases hca : t.closed_at with
      | none =>
        simp only [Bool.false_eq_true, false_iff]
        rintro ⟨hmem, himp⟩
        rcases himp ⟨hclosed, hre⟩ with ⟨c, hcc, hwin⟩
        cases hcc
      | some c => simp [hclosed, hre, TRANSITIONS]
    · rw [if_neg hcs]
      simp only [decide_eq_true_eq]
      constructor
      · intro hmem
        exact ⟨hmem, fun h => absurd h hcs⟩
      · intro h
        exact h.1
  · unfold update_ticket_status
    rw [hc]
    simp only [Bool.false_eq_true, if_false]
    unfold update_ticket_status_core
    rfl
  · intro hcan
    unfold transition_to
    rw [hcan]
    simp only [Bool.true_eq_false, if_false]
    by_cases h1 : s = TicketStatus.RESOLVED
    · simp [h1]
    · by_cases h2 : s = TicketStatus.CLOSED
      · simp [h1, h2]
      · by_cases h3 : s = TicketStatus.REOPENED
        · simp [h1, h2, h3]
        · simp [h1, h2, h3]

/-- C1 witness: the transition contract evaluated for a concrete admin on a
concrete open ticket requesting status assigned. -/
theorem C1_transition_table_witness :
    (can_transition_to openTicket TicketStatus.ASSIGNED 0 = true ↔
      (TicketStatus.ASSIGNED ∈ TRANSITIONS openTicket.status ∧
        ((openTicket.status = TicketStatus.CLOSED ∧
            TicketStatus.ASSIGNED = TicketStatus.REOPENED) →
          ∃ c, openTicket.closed_at = some c ∧ (0 - c) / secondsPerDay ≤ 7))) ∧
    (update_ticket_status adminUser openTicket (some TicketStatus.ASSIGNED) 0 =
      if can_transition_to openTicket TicketStatus.ASSIGNED 0 then
        StatusUpdateResult.ok200 ((transition_to openTicket TicketStatus.ASSIGNED 0).2)
      else StatusUpdateResult.invalidTransition400 openTicket.status TicketStatus.ASSIGNED) ∧
    (can_transition_to openTicket TicketStatus.ASSIGNED 0 = true →
      ((transition_to openTicket TicketStatus.ASSIGNED 0).2).status = TicketStatus.ASSIGNED) :=
  C1_transition_table adminUser openTicket TicketStatus.ASSIGNED 0 (Or.inr rfl)

/-- C7 is false as stated: a post first published at time 0, set to draft at
time 5, and re-published at time 10 ends with published_at 10, so a
re-publication after the post leaves and re-enters the published status does
change published_at. -/
theorem C7_counterexample :
    publishedPost.published_at = some 0 ∧
    (update_post_status (update_post_status publishedPost BlogStatus.draft 5)
      BlogStatus.published 10).published_at = some 10 ∧
    (update_post_status (update_post_status publishedPost BlogStatus.draft 5)
      BlogStatus.published 10).published_at ≠ publishedPost.published_at := by
  decide

/-- C7 amended: published_at is stamped with the current instant on every
status update whose new status is published and whose old status is not
(including a re-publication after leaving the published status, which
overwrites the earlier stamp), is left unchanged by every other status
update, and is stamped at creation exactly when the initial status is
published. -/
theorem C7_published_at (author : User) (pid : Nat) (slug : String) (p : BlogPost)
    (s : BlogStatus) (now : Nat) :
    (update_post_status p s now).published_at =
      (if s = BlogStatus.published ∧ p.status ≠ BlogStatus.published then some now
       else p.published_at) ∧
    (update_post_status p s now).status = s ∧
    (create_post author pid slug s now).published_at =
      (if s = BlogStatus.published then some now else none) := by
  refine ⟨?_, ?_, ?_⟩
  · unfold update_post_status
    by_cases h : s = BlogStatus.published ∧ p.status ≠ BlogStatus.published
    · rw [if_pos h, if_pos h]
      rfl
    · rw [if_neg h, if_neg h]
  · unfold update_post_status
    by_cases h : s = BlogStatus.published ∧ p.status ≠ BlogStatus.published
    · rw [if_pos h]
      simp [BlogPost.publish, h.1]
    · rw [if_neg h]
  · unfold create_post
    by_cases h : s = BlogStatus.published
    · rw [if_pos h, if_pos h]
      rfl
    · rw [if_neg h, if_neg h]

/-- C8 is false as stated: with an empty cache a first read of a published
post succeeds and increments view_count, but a second read is served from the
cache populated by the first and succeeds without incrementing, so two
successful reads raise view_count by one, not two. -/
theorem C8_counterexample :
    (get_post none publishedPost).status_code = 200 ∧
    (get_post (get_post none publishedPost).cache (get_post none publishedPost).post).status_code
      = 200 ∧
    (get_post (get_post none publishedPost).cache (get_post none publishedPost).post).post.view_count
      = publishedPost.view_count + 1 ∧
    (get_post (get_post none publishedPost).cache (get_post none publishedPost).post).post.view_count
      ≠ publishedPost.view_count + 2 := by
  decide

/-- C8 amended: a public read of a post increments its stored view_count by
exactly one when the read misses the cache and the post is published; a read
served from the cache returns 200 without touching view_count, and the read
succeeds with 200 exactly when it hits the cache or the post is published
(for the slug route, when the slug also matches). -/
theorem C8_view_count (p : BlogPost) (cache : Option BlogPost) (slug : String) :
    ((get_post cache p).post.view_count =
      if cache = none ∧ p.status = BlogStatus.published then p.view_count + 1
      else p.view_count) ∧
    ((get_post cache p).status_code = 200 ↔
      (cache = none → p.status = BlogStatus.published)) ∧
    ((get_post_by_slug cache p slug).post.view_count =
      if cache = none ∧ p.slug = slug ∧ p.status = BlogStatus.published then p.view_count + 1
      else p.view_count) ∧
    ((get_post_by_slug cache p slug).status_code = 200 ↔
      (cache = none → p.slug = slug ∧ p.status = BlogStatus.published)) := by
  cases cache with
  | some cached =>
    refine ⟨?_, ?_, ?_, ?_⟩ <;> simp [get_post, get_post_by_slug]
  | none =>
    by_cases hpub : p.status = BlogStatus.published
    · by_cases hslug : p.slug = slug
      · refine ⟨?_, ?_, ?_, ?_⟩ <;>
          simp [get_post, get_post_by_slug, hpub, hslug, BlogPost.increment_views]
      · refine ⟨?_, ?_, ?_, ?_⟩ <;>
          simp [get_post, get_post_by_slug, hpub, hslug, BlogPost.increment_views]
    · by_cases hslug : p.slug = slug
      · refine ⟨?_, ?_, ?_, ?_⟩ <;>
          simp [get_post, get_post_by_slug, hpub, hslug, BlogPost.increment_views]
      · refine ⟨?_, ?_, ?_, ?_⟩ <;>
          simp [get_post, get_post_by_slug, hpub, hslug, BlogPost.increment_views]

/-- Counting a cons whose head is non-null adds one. -/
theorem sqlCount_cons_some {α : Type} (a : α) (rest : List (Option α)) :
    sqlCount (some a :: rest) = sqlCount rest + 1 := by
  simp [sqlCount, List.filter_cons]

/-- Counting a cons whose head is null ignores the head. -/
theorem sqlCount_cons_none {α : Type} (rest : List (Option α)) :
    sqlCount (none :: rest) = sqlCount rest := by
  simp [sqlCount, List.filter_cons]

/-- Counting a column that is non-null on every row of a list gives the
length of the list. -/
theorem sqlCount_map_some {α β : Type} (l : List α) (f : α → β) :
    sqlCount (l.map (fun a => some (f a))) = l.length := by
  induction l with
  | nil => rfl
  | cons x xs ih =>
    rw [List.map_cons, sqlCount_cons_some, ih, List.length_cons]

/-- Counting the nullif-of-membership column over ticket rows counts exactly
the tickets whose status is resolved or closed. -/
theorem sqlCount_nullif_statuses (l : List Ticket) :
    sqlCount (l.map (fun t =>
      nullif (sqlIn (some t.status) [TicketStatus.RESOLVED, TicketStatus.CLOSED]) false)) =
    (l.filter (fun t =>
      decide (t.status = TicketStatus.RESOLVED ∨ t.status = TicketStatus.CLOSED))).length := by
  induction l with
  | nil => rfl
  | cons x xs ih =>
    by_cases h : x.status = TicketStatus.RESOLVED ∨ x.status = TicketStatus.CLOSED
    · have hhead : nullif (sqlIn (some x.status)
          [TicketStatus.RESOLVED, TicketStatus.CLOSED]) false = some true := by
        simp [sqlIn, nullif, h]
      have hfil : (x :: xs).filter (fun t =>
          decide (t.status = TicketStatus.RESOLVED ∨ t.status = TicketStatus.CLOSED)) =
          x :: xs.filter (fun t =>
            decide (t.status = TicketStatus.RESOLVED ∨ t.status = TicketStatus.CLOSED)) := by
        rw [List.filter_cons, decide_eq_true h]
        simp
      rw [List.map_cons, hhead, sqlCount_cons_some, hfil, List.length_cons, ih]
    · have hhead : nullif (sqlIn (some x.status)
          [TicketStatus.RESOLVED, TicketStatus.CLOSED]) false = none := by
        simp [sqlIn, nullif, h]
      have hfil : (x :: xs).filter (fun t =>
          decide (t.status = TicketStatus.RESOLVED ∨ t.status = TicketStatus.CLOSED)) =
          xs.filter (fun t =>
            decide (t.status = TicketStatus.RESOLVED ∨ t.status = TicketStatus.CLOSED)) := by
        rw [List.filter_cons, decide_eq_false h]
        simp
      rw [List.map_cons, hhead, sqlCount_cons_none, hfil, ih]

/-- C9: for every agent, the dashboard aggregates are correct despite their
indirect formulation: assigned_count equals the number of tickets assigned to
the agent (zero when there are none, thanks to the null row of the outer
join), and resolved_count, computed as count(nullif(status in (resolved,
closed), false)), equals the number of tickets assigned to the agent whose
status is resolved or closed. -/
theorem C9_agent_metrics (tickets : List Ticket) (agent_id : Nat) :
    assigned_count tickets agent_id =
      (tickets.filter (fun t => decide (t.assigned_to_id = some agent_id))).length ∧
    resolved_count tickets agent_id =
      (tickets.filter (fun t => decide (t.assigned_to_id = some agent_id ∧
        (t.status = TicketStatus.RESOLVED ∨ t.status = TicketStatus.CLOSED)))).length := by
  by_cases hemp : (tickets.filter (fun t => decide (t.assigned_to_id = some agent_id))).isEmpty
  · have h0 : tickets.filter (fun t => decide (t.assigned_to_id = some agent_id)) = [] :=
      List.isEmpty_iff.mp hemp
    have hall : ∀ t ∈ tickets, ¬(t.assigned_to_id = some agent_id) := by
      intro t ht
      have := List.filter_eq_nil_iff.mp h0 t ht
      simpa using this
    constructor
    · unfold assigned_count joinRows
      rw [if_pos hemp, h0]
      rfl
    · unfold resolved_count joinRows
      rw [if_pos hemp]
      have hr0 : tickets.filter (fun t => decide (t.assigned_to_id = some agent_id ∧
          (t.status = TicketStatus.RESOLVED ∨ t.status = TicketStatus.CLOSED))) = [] := by
        rw [List.filter_eq_nil_iff]
        intro t ht
        simp only [decide_eq_true_eq, not_and]
        intro ha
        exact absurd ha (hall t ht)
      rw [hr0]
      rfl
  · constructor
    · unfold assigned_count joinRows
      rw [if_neg hemp, List.map_map]
      show sqlCount ((tickets.filter (fun t => decide (t.assigned_to_id = some agent_id))).map
        (fun t => some t.id)) = _
      exact sqlCount_map_some _ _
    · unfold resolved_count joinRows
      rw [if_neg hemp, List.map_map]
      show sqlCount ((tickets.filter (fun t => decide (t.assigned_to_id = some agent_id))).map
        (fun t => nullif (sqlIn (some t.status)
          [TicketStatus.RESOLVED, TicketStatus.CLOSED]) false)) = _
      rw [sqlCount_nullif_statuses, List.filter_filter]
      have hfe : tickets.filter (fun a =>
          decide (a.status = TicketStatus.RESOLVED ∨ a.status = TicketStatus.CLOSED) &&
            decide (a.assigned_to_id = some agent_id)) =
          tickets.filter (fun t => decide (t.assigned_to_id = some agent_id ∧
            (t.status = TicketStatus.RESOLVED ∨ t.status = TicketStatus.CLOSED))) := by
        apply List.filter_congr
        intro t ht
        rw [Bool.and_comm]
        exact (Bool.decide_and _ _).symm
      rw [hfe]

/-- In a sorted day database every stored sequence is below the next generated
sequence. -/
theorem lt_nextSeq_of_sorted {db : DayDb} (hs : db.Pairwise (· < ·)) :
    ∀ a ∈ db, a < nextSeq db := by
  rcases List.eq_nil_or_concat db with rfl | ⟨l, b, rfl⟩
  · intro a ha
    cases ha
  · rw [List.concat_eq_append] at hs ⊢
    intro a ha
    have hlast : nextSeq (l ++ [b]) = b + 1 := by
      simp [nextSeq, List.getLast?_concat]
    rw [hlast]
    rcases List.mem_append.mp ha with h | h
    · have hb := (List.pairwise_append.mp hs).2.2 a h b (by simp)
      omega
    · have hab : a = b := by simpa using h
      omega

/-- Every reachable day database is strictly increasing in insertion order. -/
theorem reachable_sorted {db : DayDb} (h : ReachableDb db) : db.Pairwise (· < ·) := by
  induction h with
  | nil => exact List.Pairwise.nil
  | create db hdb ih =>
    refine List.pairwise_append.mpr ⟨ih, by simp, ?_⟩
    intro a ha b hb
    have hb1 : b = nextSeq db := by simpa using hb
    rw [hb1]
    exact lt_nextSeq_of_sorted ih a ha
  | delete db i hdb ih => exact List.Pairwise.sublist (List.eraseIdx_sublist db i) ih

/-- Folding max over a list bounded by the seed returns the seed. -/
theorem foldr_max_eq_of_le {l : List Nat} {b : Nat} (h : ∀ x ∈ l, x ≤ b) :
    l.foldr max b = b := by
  induction l with
  | nil => rfl
  | cons x xs ih =>
    rw [List.foldr_cons, ih (fun y hy => h y (List.mem_cons_of_mem x hy))]
    exact Nat.max_eq_right (h x (List.mem_cons_self x xs))

/-- For a sorted day database the generated sequence is the maximum stored
sequence plus one (1 for an empty day). -/
theorem nextSeq_eq_max_add_one {db : DayDb} (hs : db.Pairwise (· < ·)) :
    nextSeq db = db.foldr max 0 + 1 := by
  rcases List.eq_nil_or_concat db with rfl | ⟨l, b, rfl⟩
  · rfl
  · rw [List.concat_eq_append] at hs ⊢
    have h1 : nextSeq (l ++ [b]) = b + 1 := by
      simp [nextSeq, List.getLast?_concat]
    have h2 : (l ++ [b]).foldr max 0 = b := by
      rw [List.foldr_append, List.foldr_cons, List.foldr_nil,
        Nat.max_eq_left (Nat.zero_le b)]
      apply foldr_max_eq_of_le
      intro x hx
      have := (List.pairwise_append.mp hs).2.2 x hx b (by simp)
      omega
    rw [h1, h2]

/-- The decimal digit list of n has at most k digits when n is below 10 to
the k. -/
theorem decRepAux_length_le : ∀ (k fuel n : Nat), n < 10 ^ k → 1 ≤ k →
    (decRepAux fuel n).length ≤ k := by
  intro k
  induction k with
  | zero =>
    intro fuel n h h1
    omega
  | succ k ih =>
    intro fuel n hn hk
    cases fuel with
    | zero =>
      simp [decRepAux]
    | succ f =>
      unfold decRepAux
      by_cases h10 : n < 10
      · rw [if_pos h10]
        simp
      · rw [if_neg h10, List.length_append]
        simp only [List.length_cons, List.length_nil]
        cases k with
        | zero =>
          rw [pow_one] at hn
          omega
        | succ k2 =>
          have hd : n / 10 < 10 ^ (k2 + 1) := by
            rw [Nat.div_lt_iff_lt_mul (by norm_num)]
            calc n < 10 ^ (k2 + 2) := hn
            _ = 10 ^ (k2 + 1) * 10 := by rw [pow_succ]
          have := ih f (n / 10) hd (by omega)
          omega

/-- Every character the decimal printer emits is a digit. -/
theorem decRepAux_digits : ∀ (fuel n : Nat), ∀ c ∈ decRepAux fuel n, c.isDigit = true := by
  intro fuel
  have hdig : ∀ d, d < 10 → (Char.ofNat (48 + d)).isDigit = true := by decide
  induction fuel with
  | zero =>
    intro n c hc
    cases hc
  | succ f ih =>
    intro n c hc
    unfold decRepAux at hc
    by_cases h10 : n < 10
    · rw [if_pos h10] at hc
      have hc1 : c = Char.ofNat (48 + n % 10) := by simpa using hc
      rw [hc1]
      exact hdig _ (Nat.mod_lt _ (by norm_num))
    · rw [if_neg h10] at hc
      rcases List.mem_append.mp hc with h | h
      · exact ih (n / 10) c h
      · have hc1 : c = Char.ofNat (48 + n % 10) := by simpa using h
        rw [hc1]
        exact hdig _ (Nat.mod_lt _ (by norm_num))

/-- The padded sequence has exactly four characters while the sequence is at
most 9999. -/
theorem padSeq_length_of_le {n : Nat} (h : n ≤ 9999) : (padSeq n).length = 4 := by
  have hlen : (decRep n).length ≤ 4 := by
    have h4 := decRepAux_length_le 4 (n + 1) n (by omega) (by omega)
    simpa [decRep] using h4
  unfold padSeq
  rw [String.length_append, String.length_mk, List.length_replicate]
  omega

/-- Every character of the padded sequence is a digit. -/
theorem padSeq_digits (n : Nat) : ∀ c ∈ (padSeq n).data, c.isDigit = true := by
  intro c hc
  unfold padSeq at hc
  rw [String.data_append] at hc
  rcases List.mem_append.mp hc with h | h
  · have hc1 : c = '0' := by
      have := List.eq_of_mem_replicate (by simpa using h)
      exact this
    rw [hc1]
    decide
  · exact decRepAux_digits (n + 1) n c (by simpa [decRep] using h)

/-- The generated sequence grows by exactly one over the previous creation. -/
theorem nextSeq_seqsUpTo (n : Nat) : nextSeq (seqsUpTo n) = n + 1 := by
  cases n with
  | zero => rfl
  | succ k =>
    show nextSeq (seqsUpTo k ++ [k + 1]) = k + 2
    simp [nextSeq, List.getLast?_concat]

/-- Creating tickets 1 up to n in order is a reachable day state. -/
theorem reachable_seqsUpTo (n : Nat) : ReachableDb (seqsUpTo n) := by
  induction n with
  | zero => exact ReachableDb.nil
  | succ k ih =>
    have h := ReachableDb.create (seqsUpTo k) ih
    rw [nextSeq_seqsUpTo] at h
    exact h

/-- C6 is false as stated: on a day that already holds tickets 1 up to 9999
(a state reachable by ordinary creation), the next generated ticket number is
TICK-date-10000, whose sequence part has five digits, so the 4-digit
TICK-YYYYMMDD-NNNN format is violated. -/
theorem C6_counterexample :
    ReachableDb (seqsUpTo 9999) ∧
    (padSeq (nextSeq (seqsUpTo 9999))).length = 5 ∧
    generate_ticket_number "20261012" (seqsUpTo 9999) = "TICK-20261012-10000" := by
  refine ⟨reachable_seqsUpTo 9999, ?_, ?_⟩
  · rw [nextSeq_seqsUpTo]
    decide
  · unfold generate_ticket_number
    rw [nextSeq_seqsUpTo]
    decide

/-- C6 amended: in every reachable day state the generated sequence is one
greater than the highest sequence existing for that date (1 on an empty day,
hence the first number ends in 0001), is distinct from and strictly above
every existing sequence (so numbers never collide and strictly increase), and
the generated number is the TICK-date- prefix followed by the zero-padded
decimal sequence, which consists of digits and has exactly four characters as
long as the sequence does not exceed 9999 (beyond that it grows longer). -/
theorem C6_ticket_number (date : String) (db : DayDb) (h : ReachableDb db) :
    nextSeq db = db.foldr max 0 + 1 ∧
    nextSeq db ∉ db ∧
    (∀ s ∈ db, s < nextSeq db) ∧
    generate_ticket_number date db = "TICK-" ++ date ++ "-" ++ padSeq (nextSeq db) ∧
    generate_ticket_number date [] = "TICK-" ++ date ++ "-0001" ∧
    (nextSeq db ≤ 9999 → (padSeq (nextSeq db)).length = 4) ∧
    (∀ c ∈ (padSeq (nextSeq db)).data, c.isDigit = true) := by
  have hs := reachable_sorted h
  have hlt := lt_nextSeq_of_sorted hs
  refine ⟨nextSeq_eq_max_add_one hs, ?_, hlt, rfl, ?_, ?_, padSeq_digits _⟩
  · intro hmem
    exact absurd (hlt _ hmem) (by omega)
  · show "TICK-" ++ date ++ "-" ++ padSeq 1 = "TICK-" ++ date ++ "-0001"
    have hp : padSeq 1 = "0001" := by decide
    rw [hp, String.append_assoc]
    rfl
  · intro hle
    exact padSeq_length_of_le hle

/-- C6 witness: the amended statement evaluated on the concrete reachable day
state holding tickets 1 and 2. -/
theorem C6_ticket_number_witness :
    nextSeq (seqsUpTo 2) = (seqsUpTo 2).foldr max 0 + 1 ∧
    nextSeq (seqsUpTo 2) ∉ seqsUpTo 2 ∧
    (∀ s ∈ seqsUpTo 2, s < nextSeq (seqsUpTo 2)) ∧
    generate_ticket_number "20240101" (seqsUpTo 2) =
      "TICK-" ++ "20240101" ++ "-" ++ padSeq (nextSeq (seqsUpTo 2)) ∧
    generate_ticket_number "20240101" [] = "TICK-" ++ "20240101" ++ "-0001" ∧
    (nextSeq (seqsUpTo 2) ≤ 9999 → (padSeq (nextSeq (seqsUpTo 2))).length = 4) ∧
    (∀ c ∈ (padSeq (nextSeq (seqsUpTo 2))).data, c.isDigit = true) :=
  C6_ticket_number "20240101" (seqsUpTo 2) (reachable_seqsUpTo 2)

end App
